import Mathlib

/-!
Verification of the SEER ingestion-to-intelligence pipeline against its
specification.  The data model is embedded shallowly from the repository's
SQL schema (crawl_jobs, crawled_pages, extracted_indicators, threats and
related tables) and from the crawler task `scrape_and_analyze_url_task`;
backend components whose code is not in the repository snapshot (the Job
Orchestrator, Threat Normalizer, Alert Rule Engine and Knowledge Graph
Builder) are modelled from the specification text, as marked on each
definition.
-/

namespace Seer

/-- Severity enumeration, from the SQL type severity_level:
ENUM ('LOW', 'MEDIUM', 'HIGH', 'CRITICAL'). -/
inductive Severity where
  | LOW
  | MEDIUM
  | HIGH
  | CRITICAL
deriving DecidableEq, Repr

/-- Numeric rank of a severity, giving the order LOW < MEDIUM < HIGH < CRITICAL
used by threshold comparisons. -/
def sevRank : Severity → Nat
  | .LOW => 0
  | .MEDIUM => 1
  | .HIGH => 2
  | .CRITICAL => 3

/-! ## The extracted_indicators table

From the schema: page_id, type and value are NOT NULL, confidence is
FLOAT NOT NULL DEFAULT 0.9 with CHECK (0.0 <= confidence <= 1.0), context is
nullable, and there is a table constraint UNIQUE (page_id, type, value).
Confidence values are embedded as rationals. -/

/-- A row of the extracted_indicators table. -/
structure IndicatorRow where
  pageId : Nat
  ty : String
  value : String
  confidence : ℚ
  context : Option String
deriving DecidableEq, Repr

/-- The identity key of an indicator row: the column triple of the schema's
UNIQUE (page_id, type, value) constraint. -/
def IndicatorRow.key (r : IndicatorRow) : Nat × String × String :=
  (r.pageId, r.ty, r.value)

/-- The schema default for the confidence column of extracted_indicators:
DEFAULT 0.9. -/
def defaultIndicatorConfidence : ℚ := 9 / 10

/-- An indicator row as produced by inserting a regex-derived match without an
explicit confidence value, so that the column takes its schema default. -/
def mkDefaultIndicator (pageId : Nat) (ty value : String)
    (context : Option String) : IndicatorRow :=
  { pageId := pageId, ty := ty, value := value,
    confidence := defaultIndicatorConfidence, context := context }

/-- Upsert of one indicator row under the UNIQUE (page_id, type, value)
constraint: a write whose identity key is already present is a no-op
(on-conflict-do-nothing), otherwise the row is appended. -/
def upsertIndicator (tbl : List IndicatorRow) (r : IndicatorRow) :
    List IndicatorRow :=
  if r.key ∈ tbl.map IndicatorRow.key then tbl else tbl ++ [r]

/-- A sequence of indicator upserts, as issued by any interleaving of
workers storing matches. -/
def upsertIndicators (tbl : List IndicatorRow) (rs : List IndicatorRow) :
    List IndicatorRow :=
  rs.foldl upsertIndicator tbl

/-- The uniqueness invariant of the extracted_indicators table: no two rows
share the (page_id, type, value) key. -/
def indicatorKeysUnique (tbl : List IndicatorRow) : Prop :=
  (tbl.map IndicatorRow.key).Nodup

/-! ## The crawled_pages table

From the schema: id is the PRIMARY KEY (a generated uuid, embedded as the
row's position-derived natural number), job_id and url are NOT NULL, title
and content are nullable.  The table declares no UNIQUE constraint on
(job_id, url). -/

/-- A row of the crawled_pages table. -/
structure PageRow where
  id : Nat
  jobId : Nat
  url : String
  title : Option String
  content : Option String
deriving DecidableEq, Repr

/-- Insert into crawled_pages.  The only key the schema enforces is the id
primary key, realised here by assigning a fresh id; nothing constrains
(job_id, url), so every insert appends a new row. -/
def insertPage (tbl : List PageRow) (jobId : Nat) (url : String)
    (title content : Option String) : List PageRow :=
  tbl ++ [{ id := tbl.length, jobId := jobId, url := url,
            title := title, content := content }]

/-- Number of stored pages carrying a given (job_id, url) pair. -/
def pagesWithKey (tbl : List PageRow) (jobId : Nat) (url : String) : Nat :=
  (tbl.filter (fun p => decide (p.jobId = jobId) && decide (p.url = url))).length

/-! ## The threats table

From the schema: title, description, threat_type, severity, confidence and
source_url are all NOT NULL, and confidence carries
CHECK (confidence >= 0.0 AND confidence <= 1.0); tactics, techniques,
mitigations and discovery_date are nullable. -/

/-- A candidate threat row as offered to the database: every column that the
schema allows to be NULL, and every column whose NOT NULL constraint the
insert might violate, is an Option. -/
structure ThreatInsertInput where
  title : Option String
  description : Option String
  threatType : Option String
  severity : Option Severity
  confidence : Option ℚ
  sourceUrl : Option String
  tactics : Option (List String)
  techniques : Option (List String)
deriving DecidableEq, Repr

/-- A stored row of the threats table.  The NOT NULL columns are total
fields; only genuinely nullable columns remain Options. -/
structure ThreatRow where
  id : Nat
  title : String
  description : String
  threatType : String
  severity : Severity
  confidence : ℚ
  sourceUrl : String
  tactics : Option (List String)
  techniques : Option (List String)
deriving DecidableEq, Repr

/-- Insert into the threats table.  The insert is accepted exactly when every
NOT NULL column is present and the confidence CHECK constraint holds;
otherwise the database rejects the row and none is returned. -/
def insertThreat (tbl : List ThreatRow) (i : ThreatInsertInput) :
    Option (List ThreatRow) :=
  match i.title, i.description, i.threatType, i.severity, i.confidence,
      i.sourceUrl with
  | some t, some d, some ty, some sev, some c, some u =>
      if 0 ≤ c ∧ c ≤ 1 then
        some (tbl ++ [{ id := tbl.length, title := t, description := d,
                        threatType := ty, severity := sev, confidence := c,
                        sourceUrl := u, tactics := i.tactics,
                        techniques := i.techniques }])
      else none
  | _, _, _, _, _, _ => none

/-- The threats table reached from the empty table by a sequence of insert
attempts; a rejected insert leaves the table unchanged. -/
def threatsTableOf (inputs : List ThreatInsertInput) : List ThreatRow :=
  inputs.foldl (fun tbl i => (insertThreat tbl i).getD tbl) []

/-! ## The crawl-job state machine

Modelled from the spec: the Job Orchestrator's code is not part of the
repository snapshot (only the crawl_jobs schema, whose status column is
commented pending, running, completed, error, and the crawler plan are
present), so the state machine is taken from the specification:
pending -[fetch unit dispatched]-> running -[all units done]-> completed;
running -[fatal error]-> error with the error message recorded; the
pages-crawled counter is incremented as pages finish.  No transition moves
a job out of completed or error. -/

/-- Status of a crawl job. -/
inductive JobStatus where
  | pending
  | running
  | completed
  | error
deriving DecidableEq, Repr

/-- True on the two terminal statuses. -/
def JobStatus.isTerminal : JobStatus → Bool
  | .completed => true
  | .error => true
  | _ => false

/-- Position of a status along the lifecycle pending -> running -> terminal. -/
def statusRank : JobStatus → Nat
  | .pending => 0
  | .running => 1
  | .completed => 2
  | .error => 2

/-- Mutable state of one crawl job: its status, recorded error message and
pages-crawled counter. -/
structure JobState where
  status : JobStatus
  errorMessage : Option String
  pagesCrawled : Nat
deriving DecidableEq, Repr

/-- Events the Job Orchestrator applies to a job. -/
inductive JobOp where
  | dispatch
  | pageCrawled
  | allUnitsDone
  | fatalError (msg : String)
deriving DecidableEq, Repr

/-- Modelled from the spec: one orchestrator transition.  Each guarded
transition of §4.1 is applied only from the state it is specified for;
any other event is ignored, so in particular nothing applies to a
terminal job. -/
def jobStep (s : JobState) (op : JobOp) : JobState :=
  match s.status, op with
  | .pending, .dispatch => { s with status := .running }
  | .running, .pageCrawled => { s with pagesCrawled := s.pagesCrawled + 1 }
  | .running, .allUnitsDone => { s with status := .completed }
  | .running, .fatalError msg =>
      { s with status := .error, errorMessage := some msg }
  | _, _ => s

/-- A job run: the orchestrator applies a sequence of events. -/
def jobRun (s : JobState) (ops : List JobOp) : JobState :=
  ops.foldl jobStep s

/-! ## The Knowledge Graph Builder

Modelled from the spec: the Knowledge Graph Builder's code is not part of
the repository snapshot (only the dashboard's graph_update_summary
interface, the graph explorer page and the POST /api/graph/populate
endpoint listing are present).  Node identity keys are
(type, lowercase-trimmed name); edges are identified by
(source key, target key, relationship type); re-deriving an existing key is
a no-op; RepopulateFromStore re-derives nodes and edges from every stored
threat. -/

/-- Identity key of a graph node: its type together with the
lowercase-trimmed normalization of its name. -/
abbrev NodeKey := String × String

/-- Identity key of a graph edge: source node key, target node key and
relationship type. -/
abbrev EdgeKey := NodeKey × NodeKey × String

/-- Name normalization used in node identity resolution: trim surrounding
whitespace, then lowercase, realized over the string's character list. -/
def normalizeName (s : String) : String :=
  ⟨((s.data.dropWhile Char.isWhitespace).reverse.dropWhile
      Char.isWhitespace).reverse.map Char.toLower⟩

/-- Build the identity key for a node of the given type and raw name. -/
def nodeKeyOf (ty name : String) : NodeKey := (ty, normalizeName name)

/-- State of the Graph Store: its node rows and edge rows, each recorded by
identity key in insertion order. -/
structure GraphState where
  nodes : List NodeKey
  edges : List EdgeKey
deriving DecidableEq, Repr

/-- Identity-keyed row creation: append the key unless a row with that key
already exists, in which case the store is unchanged. -/
def insertNew {α : Type} [DecidableEq α] (l : List α) (x : α) : List α :=
  if x ∈ l then l else l ++ [x]

/-- Insertion of many identity-keyed rows in order. -/
def insertAllNew {α : Type} [DecidableEq α] (l : List α) (xs : List α) :
    List α :=
  xs.foldl insertNew l

/-- Upsert of a node by identity key: when the key already exists the store
is unchanged and the existing node is returned, otherwise a single new node
row is created. -/
def upsertNode (g : GraphState) (ty name : String) : GraphState × NodeKey :=
  ({ g with nodes := insertNew g.nodes (nodeKeyOf ty name) },
   nodeKeyOf ty name)

/-- Upsert of an edge by its (source, target, type) identity key:
re-deriving the same edge is a no-op, not a duplicate row. -/
def upsertEdge (g : GraphState) (src tgt : NodeKey) (rel : String) :
    GraphState :=
  { g with edges := insertNew g.edges (src, tgt, rel) }

/-- A stored threat record as seen by the graph builder: its title and the
names of its related sub-entities. -/
structure StoredThreat where
  title : String
  actors : List String
  indicators : List String
  affectedSystems : List String
deriving DecidableEq, Repr

/-- Node keys derived from one threat: the Threat node itself plus one node
per actor, indicator and affected system.  Identity keys depend only on the
threat, never on graph state, so endpoint resolution is deterministic. -/
def threatNodeKeys (t : StoredThreat) : List NodeKey :=
  nodeKeyOf "Threat" t.title ::
    (t.actors.map (nodeKeyOf "ThreatActor") ++
     t.indicators.map (nodeKeyOf "Indicator") ++
     t.affectedSystems.map (nodeKeyOf "AffectedSystem"))

/-- Edge keys derived from one threat: Threat -attributed_to-> ThreatActor,
Threat -has_indicator-> Indicator and Threat -affects-> AffectedSystem,
between the already-resolved endpoint keys. -/
def threatEdgeKeys (t : StoredThreat) : List EdgeKey :=
  let tk := nodeKeyOf "Threat" t.title
  t.actors.map (fun a => (tk, nodeKeyOf "ThreatActor" a, "attributed_to")) ++
    t.indicators.map (fun v => (tk, nodeKeyOf "Indicator" v, "has_indicator")) ++
    t.affectedSystems.map (fun s => (tk, nodeKeyOf "AffectedSystem" s, "affects"))

/-- Add one node row by key, reusing an existing row when the key is
already present. -/
def addNodeKey (g : GraphState) (k : NodeKey) : GraphState :=
  { g with nodes := insertNew g.nodes k }

/-- Add one edge row by key, reusing an existing row when the key is
already present. -/
def addEdgeKey (g : GraphState) (k : EdgeKey) : GraphState :=
  { g with edges := insertNew g.edges k }

/-- UpsertFromThreat: resolve every node of the threat, then upsert every
edge between the resolved endpoints. -/
def upsertFromThreat (g : GraphState) (t : StoredThreat) : GraphState :=
  (threatEdgeKeys t).foldl addEdgeKey ((threatNodeKeys t).foldl addNodeKey g)

/-- RepopulateFromStore: re-derive and upsert the graph entities of every
threat held in the Threat Store. -/
def repopulateFromStore (g : GraphState) (store : List StoredThreat) :
    GraphState :=
  store.foldl upsertFromThreat g

/-- All node keys derivable from a threat store, in derivation order. -/
def allNodeKeys : List StoredThreat → List NodeKey
  | [] => []
  | t :: rest => threatNodeKeys t ++ allNodeKeys rest

/-- All edge keys derivable from a threat store, in derivation order. -/
def allEdgeKeys : List StoredThreat → List EdgeKey
  | [] => []
  | t :: rest => threatEdgeKeys t ++ allEdgeKeys rest

/-! ## The Threat Normalizer

Modelled from the spec: the Threat Normalizer's code is not part of the
repository snapshot (only parsed-threat output samples and the dashboard
parser page are present).  The extraction collaborator returns either a
candidate record or a failure; validation auto-corrects a candidate
(severity defaulting to MEDIUM, confidence clamped to [0,1], null sub-lists
becoming empty) and never rejects one; extraction failure yields the
minimal heuristic fallback record. -/

/-- A candidate record as returned by the extraction collaborator: every
field may be missing or null, and the severity arrives as a raw string. -/
structure CandidateRecord where
  title : Option String
  description : Option String
  threatType : Option String
  severity : Option String
  confidence : Option ℚ
  actors : Option (List String)
  indicators : Option (List String)
  affectedSystems : Option (List String)
deriving DecidableEq, Repr

/-- A normalized threat record ready for persistence: every NOT NULL column
of the threats schema is total and the sub-entity lists are plain lists. -/
structure NormalizedThreat where
  title : String
  description : String
  threatType : String
  severity : Severity
  confidence : ℚ
  sourceUrl : String
  actors : List String
  indicators : List String
  affectedSystems : List String
deriving DecidableEq, Repr

/-- Parse a raw severity string into the four-value enumeration; any other
string is invalid. -/
def parseSeverity : String → Option Severity
  | "LOW" => some .LOW
  | "MEDIUM" => some .MEDIUM
  | "HIGH" => some .HIGH
  | "CRITICAL" => some .CRITICAL
  | _ => none

/-- Clamp a confidence value into the interval [0, 1]. -/
def clamp01 (q : ℚ) : ℚ := max 0 (min 1 q)

/-- First non-blank line of a text, if any. -/
def firstContentLine (text : String) : Option String :=
  (((text.splitOn "\n").map String.trim).filter (fun l => !l.isEmpty)).head?

/-- Heuristic title: the first non-blank content line, else the source URL. -/
def deriveTitle (rawText sourceURL : String) : String :=
  (firstContentLine rawText).getD sourceURL

/-- Modelled from the spec: the fixed low confidence constant attached to
the heuristic fallback record. -/
def fallbackConfidence : ℚ := 3 / 10

/-- Validation of a collaborator candidate record before persistence:
a missing or invalid severity becomes MEDIUM, confidence is clamped into
[0, 1], null sub-entity lists become empty lists, and missing text fields
take heuristic defaults; no candidate is ever rejected. -/
def validateRecord (c : CandidateRecord) (rawText sourceURL : String) :
    NormalizedThreat :=
  { title := c.title.getD (deriveTitle rawText sourceURL)
    description := c.description.getD rawText
    threatType := c.threatType.getD "Unknown"
    severity := (c.severity.bind parseSeverity).getD .MEDIUM
    confidence := clamp01 (c.confidence.getD 0)
    sourceUrl := sourceURL
    actors := c.actors.getD []
    indicators := c.indicators.getD []
    affectedSystems := c.affectedSystems.getD [] }

/-- The minimal heuristic record produced on extraction failure: title from
the first content line or the URL, severity LOW, the fixed low confidence,
and empty sub-entity lists. -/
def fallbackRecord (rawText sourceURL : String) : NormalizedThreat :=
  { title := deriveTitle rawText sourceURL
    description := rawText
    threatType := "Unknown"
    severity := .LOW
    confidence := fallbackConfidence
    sourceUrl := sourceURL
    actors := []
    indicators := []
    affectedSystems := [] }

/-- Normalize: validate the collaborator's candidate record, or fall back
to the minimal heuristic record when extraction failed. -/
def normalize (extraction : Except String CandidateRecord)
    (rawText sourceURL : String) : NormalizedThreat :=
  match extraction with
  | .ok c => validateRecord c rawText sourceURL
  | .error _ => fallbackRecord rawText sourceURL

/-- The insert offered to the threats table when persisting a normalized
record. -/
def toThreatInput (v : NormalizedThreat) : ThreatInsertInput :=
  { title := some v.title, description := some v.description,
    threatType := some v.threatType, severity := some v.severity,
    confidence := some v.confidence, sourceUrl := some v.sourceUrl,
    tactics := none, techniques := none }

/-! ## The Alert Rule Engine

Modelled from the spec: the Alert Rule Engine's code is not part of the
repository snapshot (only the rule-management frontend in
src/seer/dashboard/src/pages/alerts.jsx, which fixes the four rule types
and their condition payload fields: minimum severity, minimum confidence
percentage, IOC value, score threshold and threat name).  Condition
payloads are embedded as a tagged union with one evaluator per tag; only
enabled rules are evaluated and rules are independent. -/

/-- Condition payload of an alert rule, one variant per rule type. -/
inductive RuleCondition where
  | severityConfidence (minSeverity : Severity) (minConfidencePct : ℚ)
  | iocMatch (pattern : String)
  | networkAnomaly (minScore : ℚ)
  | specificThreat (threatName : String)
deriving DecidableEq, Repr

/-- An alert rule: name, condition payload and enabled flag. -/
structure AlertRule where
  id : Nat
  name : String
  enabled : Bool
  condition : RuleCondition
deriving DecidableEq, Repr

/-- A threat event offered to the engine for evaluation. -/
structure ThreatEvent where
  severity : Severity
  confidence : ℚ
  indicatorValues : List String
  anomalyScore : ℚ
  threatType : String
deriving DecidableEq, Repr

/-- Match predicate of one condition against one event, per the rule-type
table of the spec. -/
def matchesCondition (cond : RuleCondition) (e : ThreatEvent) : Bool :=
  match cond with
  | .severityConfidence minSev minPct =>
      decide (sevRank minSev ≤ sevRank e.severity) &&
        decide (minPct ≤ e.confidence * 100)
  | .iocMatch pat => e.indicatorValues.any (fun v => v == pat)
  | .networkAnomaly minScore => decide (minScore ≤ e.anomalyScore)
  | .specificThreat nm => e.threatType.toLower == nm.toLower

/-- Evaluate an event against a rule set: every enabled rule is checked
independently, and exactly the enabled matching rules trigger. -/
def evaluateRules (rules : List AlertRule) (e : ThreatEvent) :
    List AlertRule :=
  rules.filter (fun r => r.enabled && matchesCondition r.condition e)

/-! ## The crawler task scrape_and_analyze_url_task

Embedded from the crawler plan (src/unnamed/part_015): the task receives a
possibly missing URL; a missing or empty URL yields a failed output whose
single result item records the error "No URL provided"; otherwise the
browser navigation-and-extraction step either returns a title and content
or raises, and on an exception the status becomes failed, the error is
recorded, and title and content are reset to null; for .onion URLs an
OnionScan error is recorded on the item without failing the task. -/

/-- One result item of the task output, mirroring the result_item dict;
absent or null dict entries are none. -/
structure CrawlResultItem where
  id : Nat
  url : Option String
  title : Option String
  content : Option String
  contentType : Option String
  error : Option String
deriving DecidableEq, Repr

/-- The assembled final output of the task. -/
structure CrawlTaskOutput where
  jobId : Option Nat
  url : Option String
  status : String
  results : List CrawlResultItem
deriving DecidableEq, Repr

/-- Substring test used for the ".onion" check. -/
def containsSubstr (s pat : String) : Bool :=
  (s.splitOn pat).length != 1

/-- The task of src/unnamed/part_015 lines 178-248.  The navigation and
content-extraction of the try block is abstracted as an Except value:
ok with the page title and extracted content, or error with the raised
exception's message; the OnionScan subprocess outcome is abstracted as an
optional error string. -/
def scrapeAndAnalyzeUrlTask (urlIn : Option String) (jobId : Option Nat)
    (nav : Except String (String × String)) (onionScanErr : Option String) :
    CrawlTaskOutput :=
  let failNoUrl : CrawlTaskOutput :=
    { jobId := jobId, url := urlIn, status := "failed",
      results := [{ id := 0, url := none, title := none, content := none,
                    contentType := none, error := some "No URL provided" }] }
  match urlIn with
  | none => failNoUrl
  | some u =>
      if u.isEmpty then failNoUrl
      else
        match nav with
        | .ok (t, c) =>
            let itemErr : Option String :=
              if containsSubstr u.toLower ".onion" then
                onionScanErr.map (fun e => "OnionScan Error: " ++ e)
              else none
            { jobId := jobId, url := some u, status := "completed",
              results := [{ id := 0, url := some u, title := some t,
                            content := some c,
                            contentType := some "text/plain",
                            error := itemErr }] }
        | .error e =>
            { jobId := jobId, url := some u, status := "failed",
              results := [{ id := 0, url := some u, title := none,
                            content := none,
                            contentType := some "text/plain",
                            error := some ("Scraping execution failed: " ++ e) }] }

/-! ## Supporting lemmas -/

theorem mem_insertNew {α : Type} [DecidableEq α] {l : List α} {x y : α}
    (h : y ∈ l) : y ∈ insertNew l x := by
  unfold insertNew
  split
  · exact h
  · exact List.mem_append_left _ h

theorem self_mem_insertNew {α : Type} [DecidableEq α] (l : List α) (x : α) :
    x ∈ insertNew l x := by
  unfold insertNew
  split
  · assumption
  · simp

theorem insertNew_of_mem {α : Type} [DecidableEq α] {l : List α} {x : α}
    (h : x ∈ l) : insertNew l x = l := by
  unfold insertNew
  exact if_pos h

theorem mem_insertAllNew {α : Type} [DecidableEq α] {l : List α} {y : α} :
    ∀ (xs : List α), y ∈ l → y ∈ insertAllNew l xs := by
  intro xs
  induction xs generalizing l with
  | nil => intro h; exact h
  | cons x rest ih =>
      intro h
      exact ih (mem_insertNew h)

theorem subset_insertAllNew {α : Type} [DecidableEq α] :
    ∀ (xs l : List α) (x : α), x ∈ xs → x ∈ insertAllNew l xs := by
  intro xs
  induction xs with
  | nil => intro l x h; cases h
  | cons a rest ih =>
      intro l x h
      rcases List.mem_cons.mp h with h1 | h2
      · subst h1
        exact mem_insertAllNew rest (self_mem_insertNew l x)
      · exact ih _ x h2

theorem insertAllNew_of_subset {α : Type} [DecidableEq α] :
    ∀ (xs l : List α), (∀ x ∈ xs, x ∈ l) → insertAllNew l xs = l := by
  intro xs
  induction xs with
  | nil => intro l _; rfl
  | cons a rest ih =>
      intro l h
      have ha : a ∈ l := h a (List.mem_cons_self a rest)
      show insertAllNew (insertNew l a) rest = l
      rw [insertNew_of_mem ha]
      exact ih l (fun x hx => h x (List.mem_cons_of_mem a hx))

theorem insertAllNew_idem {α : Type} [DecidableEq α] (l xs : List α) :
    insertAllNew (insertAllNew l xs) xs = insertAllNew l xs :=
  insertAllNew_of_subset xs (insertAllNew l xs)
    (fun x hx => subset_insertAllNew xs l x hx)

theorem insertAllNew_append {α : Type} [DecidableEq α] (l xs ys : List α) :
    insertAllNew l (xs ++ ys) = insertAllNew (insertAllNew l xs) ys := by
  unfold insertAllNew
  exact List.foldl_append _ _ _ _

theorem foldl_addNodeKey_eq (ks : List NodeKey) :
    ∀ g : GraphState, ks.foldl addNodeKey g =
      { nodes := insertAllNew g.nodes ks, edges := g.edges } := by
  induction ks with
  | nil => intro g; rfl
  | cons k rest ih =>
      intro g
      show rest.foldl addNodeKey (addNodeKey g k) = _
      rw [ih (addNodeKey g k)]
      rfl

theorem foldl_addEdgeKey_eq (ks : List EdgeKey) :
    ∀ g : GraphState, ks.foldl addEdgeKey g =
      { nodes := g.nodes, edges := insertAllNew g.edges ks } := by
  induction ks with
  | nil => intro g; rfl
  | cons k rest ih =>
      intro g
      show rest.foldl addEdgeKey (addEdgeKey g k) = _
      rw [ih (addEdgeKey g k)]
      rfl

theorem upsertFromThreat_eq (g : GraphState) (t : StoredThreat) :
    upsertFromThreat g t =
      { nodes := insertAllNew g.nodes (threatNodeKeys t),
        edges := insertAllNew g.edges (threatEdgeKeys t) } := by
  unfold upsertFromThreat
  rw [foldl_addNodeKey_eq, foldl_addEdgeKey_eq]

theorem repopulateFromStore_eq (store : List StoredThreat) :
    ∀ g : GraphState, repopulateFromStore g store =
      { nodes := insertAllNew g.nodes (allNodeKeys store),
        edges := insertAllNew g.edges (allEdgeKeys store) } := by
  induction store with
  | nil => intro g; rfl
  | cons t rest ih =>
      intro g
      show repopulateFromStore (upsertFromThreat g t) rest = _
      rw [ih (upsertFromThreat g t), upsertFromThreat_eq]
      show _ = { nodes := insertAllNew g.nodes (threatNodeKeys t ++ allNodeKeys rest),
                 edges := insertAllNew g.edges (threatEdgeKeys t ++ allEdgeKeys rest) }
      rw [insertAllNew_append, insertAllNew_append]

theorem mem_map_key_upsertIndicator (tbl : List IndicatorRow)
    (r : IndicatorRow) :
    r.key ∈ (upsertIndicator tbl r).map IndicatorRow.key := by
  unfold upsertIndicator
  split
  · assumption
  · simp

theorem upsertIndicator_keysUnique {tbl : List IndicatorRow}
    (r : IndicatorRow) (h : indicatorKeysUnique tbl) :
    indicatorKeysUnique (upsertIndicator tbl r) := by
  unfold indicatorKeysUnique at *
  unfold upsertIndicator
  split
  · exact h
  · rename_i hmem
    rw [List.map_append, List.map_singleton]
    rw [List.nodup_append]
    refine ⟨h, List.nodup_singleton _, ?_⟩
    intro a ha hb
    rw [List.mem_singleton] at hb
    subst hb
    exact hmem ha

theorem upsertIndicators_keysUnique (rs : List IndicatorRow) :
    ∀ tbl : List IndicatorRow, indicatorKeysUnique tbl →
      indicatorKeysUnique (upsertIndicators tbl rs) := by
  induction rs with
  | nil => intro tbl h; exact h
  | cons r rest ih =>
      intro tbl h
      exact ih (upsertIndicator tbl r) (upsertIndicator_keysUnique r h)

/-! ## Claim theorems -/

/-- C1: running RepopulateFromStore a second time over the same stored data
leaves the graph state unchanged, so the second run yields identical node
and edge counts; and upserting a node whose identity key
(type, lowercase-trimmed name) already exists returns the existing node and
creates no new row. -/
theorem repopulate_idempotent_and_upsert_existing (g : GraphState)
    (store : List StoredThreat) (g' : GraphState) (ty name : String)
    (h : nodeKeyOf ty name ∈ g'.nodes) :
    repopulateFromStore (repopulateFromStore g store) store =
        repopulateFromStore g store
    ∧ (repopulateFromStore (repopulateFromStore g store) store).nodes.length =
        (repopulateFromStore g store).nodes.length
    ∧ (repopulateFromStore (repopulateFromStore g store) store).edges.length =
        (repopulateFromStore g store).edges.length
    ∧ upsertNode g' ty name = (g', nodeKeyOf ty name) := by
  have hmain : repopulateFromStore (repopulateFromStore g store) store =
      repopulateFromStore g store := by
    rw [repopulateFromStore_eq store g,
        repopulateFromStore_eq store
          { nodes := insertAllNew g.nodes (allNodeKeys store),
            edges := insertAllNew g.edges (allEdgeKeys store) }]
    show ({ nodes := insertAllNew (insertAllNew g.nodes (allNodeKeys store)) (allNodeKeys store),
            edges := insertAllNew (insertAllNew g.edges (allEdgeKeys store)) (allEdgeKeys store) } :
          GraphState) = _
    rw [insertAllNew_idem, insertAllNew_idem]
  refine ⟨hmain, by rw [hmain], by rw [hmain], ?_⟩
  unfold upsertNode
  rw [insertNew_of_mem h]

/-- Witness for C1: two sequential upserts of the same actor name in
different casing resolve to the single existing node. -/
theorem repopulate_idempotent_and_upsert_existing_witness :
    upsertNode { nodes := [("ThreatActor", "dragonforce")], edges := [] }
        "ThreatActor" "DragonForce" =
      ({ nodes := [("ThreatActor", "dragonforce")], edges := [] },
       ("ThreatActor", "dragonforce")) := by
  have h := repopulate_idempotent_and_upsert_existing
    { nodes := [], edges := [] } []
    { nodes := [("ThreatActor", "dragonforce")], edges := [] }
    "ThreatActor" "DragonForce" (by decide)
  have hk : nodeKeyOf "ThreatActor" "DragonForce" =
      ("ThreatActor", "dragonforce") := by decide
  exact hk ▸ h.2.2.2

/-- C3: the crawled_pages schema enforces no uniqueness on (job_id, url),
so ingesting the same (job, URL) a second time stores a second row instead
of updating the first: after two identical ingests the table holds two rows
with that key. -/
theorem crawledPages_reingest_duplicates :
    pagesWithKey
      (insertPage (insertPage [] 1 "https://a.example" none none)
        1 "https://a.example" none none)
      1 "https://a.example" = 2 := by
  decide

/-- C4 counterexample: an indicator row stored through the schema's column
default does not carry confidence 0.6; the default of the
extracted_indicators confidence column is 0.9. -/
theorem regexIndicator_confidence_not_six_tenths :
    ¬ ((mkDefaultIndicator 1 "cve" "CVE-2021-44228" none).confidence
        = 6 / 10) := by
  unfold mkDefaultIndicator defaultIndicatorConfidence
  norm_num

/-- C4 amended: a preliminary indicator stored without an explicit
confidence takes the schema default 0.9, a constant within [0, 1]; and
re-deriving the same (page, type, value) is absorbed, leaving a single
stored indicator for that key. -/
theorem regexIndicator_default_confidence_and_dedup (pageId : Nat)
    (ty v : String) (ctx : Option String) (tbl : List IndicatorRow) :
    (mkDefaultIndicator pageId ty v ctx).confidence =
        defaultIndicatorConfidence
    ∧ defaultIndicatorConfidence = 9 / 10
    ∧ (0 : ℚ) ≤ defaultIndicatorConfidence
    ∧ defaultIndicatorConfidence ≤ 1
    ∧ upsertIndicator (upsertIndicator tbl (mkDefaultIndicator pageId ty v ctx))
        (mkDefaultIndicator pageId ty v ctx) =
      upsertIndicator tbl (mkDefaultIndicator pageId ty v ctx) := by
  refine ⟨rfl, rfl, by norm_num [defaultIndicatorConfidence],
    by norm_num [defaultIndicatorConfidence], ?_⟩
  have h := mem_map_key_upsertIndicator tbl (mkDefaultIndicator pageId ty v ctx)
  rw [upsertIndicator, if_pos h]

/-- C5: the uniqueness invariant of extracted_indicators is preserved by
any sequence of upserts, however many times the same (page_id, type, value)
triple is offered and in whatever interleaving workers issue the writes. -/
theorem extractedIndicators_keys_unique (tbl rs : List IndicatorRow)
    (h : indicatorKeysUnique tbl) :
    indicatorKeysUnique (upsertIndicators tbl rs) :=
  upsertIndicators_keysUnique rs tbl h

/-- Witness for C5: storing the same regex match twice from the empty table
keeps the key set duplicate-free. -/
theorem extractedIndicators_keys_unique_witness :
    indicatorKeysUnique
      (upsertIndicators []
        [mkDefaultIndicator 1 "ip" "192.168.1.100" none,
         mkDefaultIndicator 1 "ip" "192.168.1.100" none]) :=
  extractedIndicators_keys_unique []
    [mkDefaultIndicator 1 "ip" "192.168.1.100" none,
     mkDefaultIndicator 1 "ip" "192.168.1.100" none]
    (by simp [indicatorKeysUnique])

end Seer

namespace Seer

theorem jobStep_rank_mono (s : JobState) (op : JobOp) :
    statusRank s.status ≤ statusRank (jobStep s op).status := by
  rcases s with ⟨st, msg, n⟩
  cases st <;> cases op <;> simp [jobStep, statusRank]

theorem jobStep_terminal_fixed (s : JobState) (op : JobOp)
    (h : s.status.isTerminal = true) : jobStep s op = s := by
  rcases s with ⟨st, msg, n⟩
  cases st <;> cases op <;> first
    | rfl
    | simp [JobStatus.isTerminal] at h

theorem jobStep_pages_mono (s : JobState) (op : JobOp) :
    s.pagesCrawled ≤ (jobStep s op).pagesCrawled := by
  rcases s with ⟨st, msg, n⟩
  cases st <;> cases op <;> simp [jobStep]

theorem jobRun_rank_mono (ops : List JobOp) :
    ∀ s : JobState, statusRank s.status ≤ statusRank (jobRun s ops).status := by
  induction ops with
  | nil => intro s; exact Nat.le_refl _
  | cons op rest ih =>
      intro s
      exact Nat.le_trans (jobStep_rank_mono s op) (ih (jobStep s op))

theorem jobRun_terminal_fixed (ops : List JobOp) :
    ∀ s : JobState, s.status.isTerminal = true → jobRun s ops = s := by
  induction ops with
  | nil => intro s _; rfl
  | cons op rest ih =>
      intro s h
      show jobRun (jobStep s op) rest = s
      rw [jobStep_terminal_fixed s op h]
      exact ih s h

theorem jobRun_pages_mono (ops : List JobOp) :
    ∀ s : JobState, s.pagesCrawled ≤ (jobRun s ops).pagesCrawled := by
  induction ops with
  | nil => intro s; exact Nat.le_refl _
  | cons op rest ih =>
      intro s
      exact Nat.le_trans (jobStep_pages_mono s op) (ih (jobStep s op))

/-- C2: under any sequence of orchestrator events, a job's status moves
only forward along pending -> running -> terminal (its rank never
decreases), a job in completed or error is never changed again, and the
pages-crawled counter never decreases. -/
theorem crawlJob_status_monotone (s : JobState) (ops : List JobOp) :
    statusRank s.status ≤ statusRank (jobRun s ops).status
    ∧ (s.status.isTerminal = true → jobRun s ops = s)
    ∧ s.pagesCrawled ≤ (jobRun s ops).pagesCrawled :=
  ⟨jobRun_rank_mono ops s, jobRun_terminal_fixed ops s, jobRun_pages_mono ops s⟩

/-- Witness for C2: a completed job with three pages crawled is untouched by
a later dispatch, page event and fatal error. -/
theorem crawlJob_status_monotone_witness :
    jobRun { status := .completed, errorMessage := none, pagesCrawled := 3 }
        [.dispatch, .pageCrawled, .fatalError "late"] =
      { status := .completed, errorMessage := none, pagesCrawled := 3 } :=
  (crawlJob_status_monotone
    { status := .completed, errorMessage := none, pagesCrawled := 3 }
    [.dispatch, .pageCrawled, .fatalError "late"]).2.1 (by decide)

theorem insertThreat_isSome_iff (tbl : List ThreatRow)
    (i : ThreatInsertInput) :
    (insertThreat tbl i).isSome = true ↔
      (i.title.isSome = true ∧ i.description.isSome = true ∧
       i.threatType.isSome = true ∧ i.severity.isSome = true ∧
       i.sourceUrl.isSome = true ∧
       ∃ c, i.confidence = some c ∧ 0 ≤ c ∧ c ≤ 1) := by
  rcases i with ⟨t, d, ty, sev, c, u, ta, te⟩
  cases t <;> cases d <;> cases ty <;> cases sev <;> cases c <;> cases u <;>
    simp [insertThreat]

theorem insertThreat_mem_bounds (tbl : List ThreatRow)
    (i : ThreatInsertInput) (tbl' : List ThreatRow)
    (hins : insertThreat tbl i = some tbl') :
    ∀ r ∈ tbl', r ∈ tbl ∨ (0 ≤ r.confidence ∧ r.confidence ≤ 1) := by
  rcases i with ⟨t, d, ty, sev, c, u, ta, te⟩
  cases t <;> cases d <;> cases ty <;> cases sev <;> cases c <;> cases u <;>
    simp [insertThreat] at hins
  rename_i cv _
  rcases hins with ⟨⟨h0, h1⟩, htbl⟩
  subst htbl
  intro r hr
  rcases List.mem_append.mp hr with hl | hr1
  · exact Or.inl hl
  · rw [List.mem_singleton] at hr1
    subst hr1
    exact Or.inr ⟨h0, h1⟩

theorem threatsTableOf_bounds (inputs : List ThreatInsertInput) :
    ∀ tbl : List ThreatRow,
      (∀ r ∈ tbl, 0 ≤ r.confidence ∧ r.confidence ≤ 1) →
      ∀ r ∈ inputs.foldl (fun tbl i => (insertThreat tbl i).getD tbl) tbl,
        0 ≤ r.confidence ∧ r.confidence ≤ 1 := by
  induction inputs with
  | nil => intro tbl h; exact h
  | cons i rest ih =>
      intro tbl h
      refine ih ((insertThreat tbl i).getD tbl) ?_
      rcases hins : insertThreat tbl i with _ | tbl'
      · simpa using h
      · intro r hr
        rw [Option.getD_some] at hr
        rcases insertThreat_mem_bounds tbl i tbl' hins r hr with hmem | hb
        · exact h r hmem
        · exact hb

/-- C9: an insert into the threats table is accepted exactly when title,
description, threat type, severity and source URL are all non-null and the
confidence lies in [0, 1]; an input without a source_url is always
rejected; and every row of a table built by insert attempts from the empty
table has its confidence within [0, 1] (its remaining NOT NULL columns are
total fields of ThreatRow by construction). -/
theorem threats_rows_schema_valid (tbl : List ThreatRow)
    (i : ThreatInsertInput) (inputs : List ThreatInsertInput) :
    ((insertThreat tbl i).isSome = true ↔
      (i.title.isSome = true ∧ i.description.isSome = true ∧
       i.threatType.isSome = true ∧ i.severity.isSome = true ∧
       i.sourceUrl.isSome = true ∧
       ∃ c, i.confidence = some c ∧ 0 ≤ c ∧ c ≤ 1))
    ∧ (i.sourceUrl = none → insertThreat tbl i = none)
    ∧ (∀ r ∈ threatsTableOf inputs, 0 ≤ r.confidence ∧ r.confidence ≤ 1) := by
  refine ⟨insertThreat_isSome_iff tbl i, ?_, ?_⟩
  · intro hu
    rcases i with ⟨t, d, ty, sev, c, u, ta, te⟩
    cases u
    · cases t <;> cases d <;> cases ty <;> cases sev <;> cases c <;>
        simp [insertThreat]
    · cases hu
  · exact threatsTableOf_bounds inputs [] (by simp)

/-- Witness for C9: a fully-populated input without a source URL is
rejected by the threats table. -/
theorem threats_rows_schema_valid_witness :
    insertThreat []
      { title := some "Leaked Credentials", description := some "dump",
        threatType := some "Data Breach", severity := some .HIGH,
        confidence := some (9 / 10), sourceUrl := none,
        tactics := none, techniques := none } = none :=
  (threats_rows_schema_valid []
    { title := some "Leaked Credentials", description := some "dump",
      threatType := some "Data Breach", severity := some .HIGH,
      confidence := some (9 / 10), sourceUrl := none,
      tactics := none, techniques := none } []).2.1 rfl

theorem clamp01_nonneg (q : ℚ) : 0 ≤ clamp01 q := le_max_left 0 _

theorem clamp01_le_one (q : ℚ) : clamp01 q ≤ 1 := by
  unfold clamp01
  rcases le_total 0 (min 1 q) with h | h
  · rw [max_eq_right h]
    exact min_le_left 1 q
  · rw [max_eq_left h]
    exact zero_le_one

theorem insertThreat_of_normalized (tbl : List ThreatRow)
    (v : NormalizedThreat) (h0 : 0 ≤ v.confidence)
    (h1 : v.confidence ≤ 1) :
    (insertThreat tbl (toThreatInput v)).isSome = true := by
  simp [insertThreat, toThreatInput, h0, h1]

/-- C6: validation of a candidate record never rejects it: a missing or
unparseable severity becomes MEDIUM (a parseable one is kept), the
confidence is clamped into [0, 1], null sub-entity lists become empty
lists, and the validated record always passes the threats-table insert. -/
theorem normalizer_validation_never_rejects (c : CandidateRecord)
    (text url : String) (tbl : List ThreatRow) :
    (0 ≤ (validateRecord c text url).confidence ∧
      (validateRecord c text url).confidence ≤ 1)
    ∧ (c.severity = none → (validateRecord c text url).severity = .MEDIUM)
    ∧ (∀ s, c.severity = some s → parseSeverity s = none →
        (validateRecord c text url).severity = .MEDIUM)
    ∧ (∀ s sev, c.severity = some s → parseSeverity s = some sev →
        (validateRecord c text url).severity = sev)
    ∧ (∀ q, c.confidence = some q →
        (validateRecord c text url).confidence = clamp01 q)
    ∧ (c.actors = none → (validateRecord c text url).actors = [])
    ∧ (c.indicators = none → (validateRecord c text url).indicators = [])
    ∧ (c.affectedSystems = none →
        (validateRecord c text url).affectedSystems = [])
    ∧ (insertThreat tbl (toThreatInput (validateRecord c text url))).isSome
        = true := by
  refine ⟨⟨clamp01_nonneg _, clamp01_le_one _⟩, ?_, ?_, ?_, ?_, ?_, ?_, ?_, ?_⟩
  · intro h; simp [validateRecord, h]
  · intro s hs hp; simp [validateRecord, hs, hp]
  · intro s sev hs hp; simp [validateRecord, hs, hp]
  · intro q hq; simp [validateRecord, hq]
  · intro h; simp [validateRecord, h]
  · intro h; simp [validateRecord, h]
  · intro h; simp [validateRecord, h]
  · exact insertThreat_of_normalized tbl _ (clamp01_nonneg _) (clamp01_le_one _)

/-- Witness for C6: a candidate with an invalid severity string and an
out-of-range confidence is auto-corrected to MEDIUM and persists. -/
theorem normalizer_validation_never_rejects_witness :
    (validateRecord
        { title := none, description := none, threatType := none,
          severity := some "SEVERE", confidence := some (5 / 2),
          actors := none, indicators := none, affectedSystems := none }
        "raw text" "https://s.example").severity = .MEDIUM
    ∧ (insertThreat []
        (toThreatInput (validateRecord
          { title := none, description := none, threatType := none,
            severity := some "SEVERE", confidence := some (5 / 2),
            actors := none, indicators := none, affectedSystems := none }
          "raw text" "https://s.example"))).isSome = true := by
  have h := normalizer_validation_never_rejects
    { title := none, description := none, threatType := none,
      severity := some "SEVERE", confidence := some (5 / 2),
      actors := none, indicators := none, affectedSystems := none }
    "raw text" "https://s.example" []
  exact ⟨h.2.2.1 "SEVERE" rfl rfl, h.2.2.2.2.2.2.2.2⟩

/-- C7: on extraction failure, Normalize produces the minimal heuristic
record: title from the first non-blank content line or the URL, severity
LOW, the fixed low confidence constant, empty sub-entity lists; and that
record always passes the threats-table insert, so failed extractions are
never dropped. -/
theorem normalizer_fallback_on_failure (err text url : String)
    (tbl : List ThreatRow) :
    normalize (Except.error err) text url = fallbackRecord text url
    ∧ (fallbackRecord text url).title = (firstContentLine text).getD url
    ∧ (fallbackRecord text url).severity = .LOW
    ∧ (fallbackRecord text url).confidence = fallbackConfidence
    ∧ 0 < fallbackConfidence ∧ fallbackConfidence ≤ 1 / 2
    ∧ (fallbackRecord text url).actors = []
    ∧ (fallbackRecord text url).indicators = []
    ∧ (fallbackRecord text url).affectedSystems = []
    ∧ (insertThreat tbl (toThreatInput (fallbackRecord text url))).isSome
        = true := by
  refine ⟨rfl, rfl, rfl, rfl, by norm_num [fallbackConfidence],
    by norm_num [fallbackConfidence], rfl, rfl, rfl, ?_⟩
  refine insertThreat_of_normalized tbl _ ?_ ?_ <;>
    norm_num [fallbackRecord, fallbackConfidence]

/-- C8: an enabled severity_confidence rule triggers on an event exactly
when the event's severity is at least the rule's minimum severity and the
event's confidence times 100 is at least the rule's minimum confidence
percentage; a rule that is not enabled never triggers. -/
theorem severityConfidence_rule_matches (rules : List AlertRule)
    (e : ThreatEvent) (r : AlertRule) (minSev : Severity) (minPct : ℚ) :
    (r.condition = .severityConfidence minSev minPct →
      (r ∈ evaluateRules rules e ↔
        r ∈ rules ∧ r.enabled = true ∧
          sevRank minSev ≤ sevRank e.severity ∧
          minPct ≤ e.confidence * 100))
    ∧ (r.enabled = false → r ∉ evaluateRules rules e) := by
  constructor
  · intro hcond
    simp [evaluateRules, List.mem_filter, hcond, matchesCondition, and_assoc]
  · intro hen
    simp [evaluateRules, List.mem_filter, hen]

/-- Witness for C8: a HIGH-or-above, 75-percent rule triggers on a
CRITICAL event with confidence 0.8, and a disabled rule triggers on
nothing. -/
theorem severityConfidence_rule_matches_witness :
    ({ id := 0, name := "high-sev", enabled := true,
       condition := .severityConfidence .HIGH 75 } : AlertRule) ∈
      evaluateRules
        [{ id := 0, name := "high-sev", enabled := true,
           condition := .severityConfidence .HIGH 75 }]
        { severity := .CRITICAL, confidence := 8 / 10,
          indicatorValues := [], anomalyScore := 0,
          threatType := "Ransomware" }
    ∧ ({ id := 1, name := "off", enabled := false,
         condition := .severityConfidence .LOW 0 } : AlertRule) ∉
      evaluateRules
        [{ id := 1, name := "off", enabled := false,
           condition := .severityConfidence .LOW 0 }]
        { severity := .CRITICAL, confidence := 8 / 10,
          indicatorValues := [], anomalyScore := 0,
          threatType := "Ransomware" } := by
  have h1 := severityConfidence_rule_matches
    [{ id := 0, name := "high-sev", enabled := true,
       condition := .severityConfidence .HIGH 75 }]
    { severity := .CRITICAL, confidence := 8 / 10, indicatorValues := [],
      anomalyScore := 0, threatType := "Ransomware" }
    { id := 0, name := "high-sev", enabled := true,
      condition := .severityConfidence .HIGH 75 } .HIGH 75
  have h2 := severityConfidence_rule_matches
    [{ id := 1, name := "off", enabled := false,
       condition := .severityConfidence .LOW 0 }]
    { severity := .CRITICAL, confidence := 8 / 10, indicatorValues := [],
      anomalyScore := 0, threatType := "Ransomware" }
    { id := 1, name := "off", enabled := false,
      condition := .severityConfidence .LOW 0 } .LOW 0
  refine ⟨(h1.1 rfl).mpr ⟨List.mem_singleton.mpr rfl, rfl, by decide,
    by norm_num⟩, h2.2 rfl⟩

/-- C10: for every input, the task returns an output carrying the given
job id and URL, a status that is completed or failed, and a one-element
results list; and whenever navigation or extraction raises, every result
item records an error and has title and content reset to null. -/
theorem scrapeTask_output_shape (urlIn : Option String) (jobId : Option Nat)
    (nav : Except String (String × String)) (onionErr : Option String) :
    (scrapeAndAnalyzeUrlTask urlIn jobId nav onionErr).jobId = jobId
    ∧ (scrapeAndAnalyzeUrlTask urlIn jobId nav onionErr).url = urlIn
    ∧ ((scrapeAndAnalyzeUrlTask urlIn jobId nav onionErr).status = "completed"
        ∨ (scrapeAndAnalyzeUrlTask urlIn jobId nav onionErr).status = "failed")
    ∧ (scrapeAndAnalyzeUrlTask urlIn jobId nav onionErr).results.length = 1
    ∧ (∀ msg, nav = Except.error msg →
        ((scrapeAndAnalyzeUrlTask urlIn jobId nav onionErr).results.all
          (fun item => item.error.isSome && decide (item.title = none) &&
            decide (item.content = none))) = true) := by
  rcases urlIn with _ | u
  · simp [scrapeAndAnalyzeUrlTask]
  · by_cases hu : u.isEmpty
    · simp [scrapeAndAnalyzeUrlTask, hu]
    · rcases nav with msg | ⟨t, c⟩
      · simp [scrapeAndAnalyzeUrlTask, hu]
      · simp [scrapeAndAnalyzeUrlTask, hu]

/-- Witness for C10: a navigation exception yields a failed single-item
output whose item records the error with null title and content. -/
theorem scrapeTask_output_shape_witness :
    (scrapeAndAnalyzeUrlTask (some "https://x.example") (some 7)
        (Except.error "boom") none).results.length = 1
    ∧ ((scrapeAndAnalyzeUrlTask (some "https://x.example") (some 7)
        (Except.error "boom") none).results.all
          (fun item => item.error.isSome && decide (item.title = none) &&
            decide (item.content = none))) = true := by
  have h := scrapeTask_output_shape (some "https://x.example") (some 7)
    (Except.error "boom") none
  exact ⟨h.2.2.2.1, h.2.2.2.2 "boom" rfl⟩

end Seer
